import Mathlib

/-!
# Resume Analyzer — verification of the scoring, matching and validation logic

Shallow embedding of the Resume-Analyzer repository's TypeScript sources:

* the `calculateOverallScore` aggregation and quality-level display of the
  `AnalysisResults` React component;
* the `/analyze` Express request handler's status-code mapping;
* `DocumentParserService.parseDocument`'s error fallback behaviour;
* the file-upload validation chain (`validateFileSize`, `basicMalwareCheck`,
  `validateFileType`, `validateUploadedFile`);
* the skills-gap matcher and the ATS / contact-completeness computations
  (these live in Python scripts that are not part of the TypeScript sources;
  they are modelled from the written specification).

JavaScript numbers are modelled as rationals (`ℚ`), `Math.round` as
`⌊x + 1/2⌋`, byte buffers as `List Char` of code points, and thrown
exceptions as `Except String`.
-/

namespace ResumeAnalyzer

/-! ## Part 1: `AnalysisResults.calculateOverallScore` (frontend component)

The component receives `results.data` and aggregates an overall score from
the component scores that are present, `available` and truthy (non-zero).
-/

/-- The `ats_compatibility` slice of the analysis data used by the component. -/
structure AtsCompatibility where
  available : Bool
  score : ℚ
  deriving Repr, DecidableEq

/-- The `match_analysis` slice of the analysis data used by the component. -/
structure MatchAnalysis where
  available : Bool
  overall_match : ℚ
  deriving Repr, DecidableEq

/-- The `skills` slice of the analysis data used by the component. -/
structure SkillsInfo where
  match_percentage : ℚ
  deriving Repr, DecidableEq

/-- The `contact_info` slice of the analysis data used by the component. -/
structure ContactInfoScore where
  completeness_score : ℚ
  deriving Repr, DecidableEq

/-- `results.data` as consumed by `calculateOverallScore`.  `role_inference`
and `timestamp` stand for the many response fields the score never reads
(optional fields are `Option`, mirroring the `?.` accesses in the source). -/
structure AnalysisData where
  ats_compatibility : Option AtsCompatibility
  match_analysis : Option MatchAnalysis
  skills : Option SkillsInfo
  contact_info : Option ContactInfoScore
  role_inference : String
  timestamp : String
  deriving Repr, DecidableEq

/-- JavaScript `Math.round`: round half toward positive infinity. -/
def jsRound (q : ℚ) : ℤ := ⌊q + 1/2⌋

/-- The `(totalScore, scoreCount)` accumulator of `calculateOverallScore`,
built by the same four sequential conditional additions as the source:
a component contributes when it is present, `available` (where the source
checks that flag) and its score is truthy (non-zero). -/
def scoreAcc (d : AnalysisData) : ℚ × ℕ :=
  let p0 : ℚ × ℕ := (0, 0)
  let p1 : ℚ × ℕ :=
    match d.ats_compatibility with
    | some a => if a.available = true ∧ a.score ≠ 0 then (p0.1 + a.score, p0.2 + 1) else p0
    | none => p0
  let p2 : ℚ × ℕ :=
    match d.match_analysis with
    | some m => if m.available = true ∧ m.overall_match ≠ 0 then
        (p1.1 + m.overall_match, p1.2 + 1) else p1
    | none => p1
  let p3 : ℚ × ℕ :=
    match d.skills with
    | some s => if s.match_percentage ≠ 0 then (p2.1 + s.match_percentage, p2.2 + 1) else p2
    | none => p2
  match d.contact_info with
  | some c => if c.completeness_score ≠ 0 then (p3.1 + c.completeness_score, p3.2 + 1) else p3
  | none => p3

/-- `calculateOverallScore` from the `AnalysisResults` component:
`scoreCount > 0 ? Math.round(totalScore / scoreCount) : 0`. -/
def calculateOverallScore (d : AnalysisData) : ℤ :=
  if 0 < (scoreAcc d).2 then jsRound ((scoreAcc d).1 / ((scoreAcc d).2 : ℚ)) else 0

/-- The quality label the component displays next to the overall score:
`>= 80 ? 'Excellent' : >= 60 ? 'Good' : 'Needs Improvement'`. -/
def qualityLevel (s : ℤ) : String :=
  if 80 ≤ s then "Excellent" else if 60 ≤ s then "Good" else "Needs Improvement"

/-- The quality-level bucketing as worded by the specification (for
comparison with `qualityLevel`): excellent ≥85, good ≥75, average ≥65,
below_average ≥50, needs_improvement otherwise. -/
def specQualityLevel (s : ℤ) : String :=
  if 85 ≤ s then "excellent"
  else if 75 ≤ s then "good"
  else if 65 ≤ s then "average"
  else if 50 ≤ s then "below_average"
  else "needs_improvement"

/-- Declarative description of the component scores that enter the
aggregation: the list of scores that are present, available and non-zero,
in source order. -/
def includedScores (d : AnalysisData) : List ℚ :=
  (match d.ats_compatibility with
   | some a => if a.available = true ∧ a.score ≠ 0 then [a.score] else []
   | none => []) ++
  (match d.match_analysis with
   | some m => if m.available = true ∧ m.overall_match ≠ 0 then [m.overall_match] else []
   | none => []) ++
  (match d.skills with
   | some s => if s.match_percentage ≠ 0 then [s.match_percentage] else []
   | none => []) ++
  (match d.contact_info with
   | some c => if c.completeness_score ≠ 0 then [c.completeness_score] else []
   | none => [])

/-- The sequential accumulator agrees with the declarative list of included
scores: it holds their sum and their count. -/
theorem scoreAcc_eq_includedScores (d : AnalysisData) :
    scoreAcc d = ((includedScores d).sum, (includedScores d).length) := by
  obtain ⟨ats, ma, sk, ci, ri, ts⟩ := d
  cases ats <;> cases ma <;> cases sk <;> cases ci <;>
    simp only [scoreAcc, includedScores] <;>
    (try split_ifs) <;>
    simp_all [List.sum_append, List.length_append] <;>
    ring_nf

/-! ## Part 2: Skills taxonomy & matcher

Modelled from the spec: the skills matcher itself lives in the repository's
Python scripts (`python_scripts/`), which are not among the TypeScript
sources; only its result interface (`SkillsGapAnalysis`) is declared there.
The set operations follow the specification's formulas verbatim. -/

/-- Modelled from the spec: `matched = S ∩ (R ∪ P)` — the matcher's Python
implementation is missing from the sources. -/
def matchedSkills (S R P : Finset String) : Finset String := S ∩ (R ∪ P)

/-- Modelled from the spec: `missing_required = R \ S`. -/
def missingRequired (S R _P : Finset String) : Finset String := R \ S

/-- Modelled from the spec: `missing_preferred = P \ S`. -/
def missingPreferred (S _R P : Finset String) : Finset String := P \ S

/-- Modelled from the spec: `bonus = S \ (R ∪ P)`. -/
def bonusSkills (S R P : Finset String) : Finset String := S \ (R ∪ P)

/-- Modelled from the spec: `required_coverage = |matched ∩ R| / |R|`
(0 when R is empty), expressed as a percentage. -/
def requiredCoverage (S R P : Finset String) : ℚ :=
  if R.card = 0 then 0 else 100 * ((matchedSkills S R P ∩ R).card : ℚ) / (R.card : ℚ)

/-- Modelled from the spec: `preferred_coverage` analogous to
`required_coverage` (0 when P is empty). -/
def preferredCoverage (S R P : Finset String) : ℚ :=
  if P.card = 0 then 0 else 100 * ((matchedSkills S R P ∩ P).card : ℚ) / (P.card : ℚ)

/-- Modelled from the spec: `overall_coverage` weights required coverage
higher than preferred; the exact weight `w` is a tunable parameter
(e.g. a 70/30 split is `w = 7/10`). -/
def overallCoverage (w req pref : ℚ) : ℚ := w * req + (1 - w) * pref

/-- Modelled from the spec: `gap_level` bucketed from `overall_coverage`:
excellent ≥80, good ≥60, fair ≥40, poor <40. -/
def gapLevel (c : ℚ) : String :=
  if 80 ≤ c then "excellent" else if 60 ≤ c then "good"
  else if 40 ≤ c then "fair" else "poor"

/-! ## Part 3: ATS compatibility analyzer

Modelled from the spec: the ATS analyzer is also implemented in the missing
Python scripts; the TypeScript sources only declare its result shape
(`ATSAnalysisResult`, whose `ats_score` carries `total_score`, a four-way
`breakdown` and a `critical_penalty` flag). -/

/-- Input signals of the ATS analyzer: the four sub-scores plus the parsed
document's `is_scanned` flag and extracted text. -/
structure AtsInput where
  file_format_score : ℚ
  layout_score : ℚ
  content_score : ℚ
  length_score : ℚ
  is_scanned : Bool
  extracted_text : String
  deriving Repr, DecidableEq

/-- The `ats_score` object of `ATSAnalysisResult`. -/
structure AtsScore where
  total_score : ℚ
  file_format : ℚ
  layout : ℚ
  content : ℚ
  length : ℚ
  critical_penalty : Bool
  deriving Repr, DecidableEq

/-- Modelled from the spec: the ATS total score is the combination of the
sub-scores, except that a scanned document with empty extracted text is
forced to a total of 0 with `critical_penalty = true`, regardless of every
other signal (the Python implementation is missing from the sources). -/
def computeAtsScore (i : AtsInput) : AtsScore :=
  if i.is_scanned = true ∧ i.extracted_text = "" then
    ⟨0, i.file_format_score, i.layout_score, i.content_score, i.length_score, true⟩
  else
    ⟨i.file_format_score + i.layout_score + i.content_score + i.length_score,
      i.file_format_score, i.layout_score, i.content_score, i.length_score, false⟩

/-! ## Part 4: Contact-info completeness

Modelled from the spec: contact extraction is in the missing Python
scripts; `completeness_score = (fields_present / 5) × 100` over the five
expected fields (name, email, phone, location, at least one link). -/

/-- An extracted contact record: the five expected fields. -/
structure ExtractedContact where
  name : Option String
  email : Option String
  phone : Option String
  location : Option String
  links : List String
  deriving Repr, DecidableEq

/-- How many of the five expected contact fields are present (the links
field counts when at least one link was found). -/
def presentFieldCount (c : ExtractedContact) : ℕ :=
  (if c.name.isSome then 1 else 0) + (if c.email.isSome then 1 else 0) +
  (if c.phone.isSome then 1 else 0) + (if c.location.isSome then 1 else 0) +
  (if c.links ≠ [] then 1 else 0)

/-- Modelled from the spec: `completeness_score = (fields_present/5)×100`
(the extractor's Python implementation is missing from the sources). -/
def completenessScore (c : ExtractedContact) : ℚ :=
  ((presentFieldCount c : ℚ) / 5) * 100

/-! ## Part 5: `DocumentParserService.parseDocument`

The service spawns a Python parser and resolves with its JSON output; every
failure mode (missing file, missing script, crashed/timed-out Python
process, malformed output) is caught and turned into a structured fallback
document with `success = false` — the promise never rejects. -/

/-- The fields of `ParsedDocument` relevant to the error-fallback contract:
the top-level `success`/`error`, the `text_extraction` slice, the summary's
scanned flag and the recommendation list. -/
structure ParsedDocument where
  success : Bool
  error : Option String
  text_extraction_success : Bool
  text : String
  is_scanned : Bool
  structure_quality : String
  recommendations : List String
  deriving Repr, DecidableEq

/-- The fallback `ParsedDocument` built in `parseDocument`'s catch block. -/
def fallbackDocument (msg : String) : ParsedDocument :=
  { success := false
    error := some msg
    text_extraction_success := false
    text := ""
    is_scanned := false
    structure_quality := "unknown"
    recommendations := ["Document parsing failed - please check file format and try again"] }

/-- The environment `parseDocument` runs against: whether the input file and
the Python parser script exist on disk, the outcome of the spawned Python
process (`Except.error` for a non-zero exit, spawn failure, timeout or
non-JSON output), and whether the decoded output passes
`isValidParseResult`'s structural check. -/
structure ParseEnv where
  fileExists : Bool
  scriptExists : Bool
  pyOutcome : Except String ParsedDocument
  resultStructValid : Bool

/-- `DocumentParserService.parseDocument`: validate the environment, run the
Python parser, and on any internal error resolve with the structured
fallback document instead of rejecting. -/
def parseDocument (env : ParseEnv) (filePath : String) : ParsedDocument :=
  if env.fileExists = false then
    fallbackDocument ("File not found: " ++ filePath)
  else if env.scriptExists = false then
    fallbackDocument "Parser script not found"
  else
    match env.pyOutcome with
    | Except.error msg => fallbackDocument msg
    | Except.ok r =>
        if env.resultStructValid = true then r
        else fallbackDocument "Invalid parsing result structure"

/-- The internal-error condition of `parseDocument`: any of its four failure
modes. -/
def parseInternalError (env : ParseEnv) : Prop :=
  env.fileExists = false ∨ env.scriptExists = false ∨
  (∃ msg, env.pyOutcome = Except.error msg) ∨ env.resultStructValid = false

instance (env : ParseEnv) : Decidable (parseInternalError env) :=
  match h : env.pyOutcome with
  | Except.error m => isTrue (Or.inr (Or.inr (Or.inl ⟨m, h⟩)))
  | Except.ok _ =>
      decidable_of_iff
        (env.fileExists = false ∨ env.scriptExists = false ∨ env.resultStructValid = false)
        (by unfold parseInternalError; rw [h]; simp)

/-! ## Part 6: file-upload validation (`fileValidation.ts`)

Buffers are modelled as lists of byte code points; `throw` inside the three
helper validators is `Except.error`, and `validateUploadedFile` is the
catch-all that converts any thrown error into `isValid = false`. -/

/-- `MAX_FILE_SIZE = 10 * 1024 * 1024` bytes. -/
def MAX_FILE_SIZE : ℕ := 10 * 1024 * 1024

/-- `ALLOWED_EXTENSIONS = ['.pdf', '.doc', '.docx']`. -/
def ALLOWED_EXTENSIONS : List String := [".pdf", ".doc", ".docx"]

/-- Does `needle` occur at the head of `hay`? -/
def leadsWith : List Char → List Char → Bool
  | [], _ => true
  | _ :: _, [] => false
  | a :: as, b :: bs => a = b && leadsWith as bs

/-- Does `needle` occur anywhere inside `hay`? -/
def containsSeq (hay needle : List Char) : Bool :=
  match hay with
  | [] => needle.isEmpty
  | _ :: rest => leadsWith needle hay || containsSeq rest needle

/-- Lowercase a string character-by-character (JS `toLowerCase` on the
ASCII names involved here). -/
def sLower (s : String) : String := ⟨s.data.map Char.toLower⟩

/-- JS `String.endsWith`. -/
def sEndsWith (s suffix : String) : Bool :=
  leadsWith suffix.data.reverse s.data.reverse

/-- The characters after the last dot of a name, `none` when it has no dot. -/
def extTail : List Char → Option (List Char)
  | [] => none
  | c :: rest =>
      match extTail rest with
      | some t => some t
      | none => if c = '.' then some rest else none

/-- `path.extname` on a file name without path separators: the suffix from
the last dot, except that a name whose last dot is its first character
(`.pdf`, `.index`, `.`) and the name `..` have no extension — Node's
`preDotState` rule. -/
def extname (name : String) : String :=
  if name = ".." then ""
  else
    match extTail name.data with
    | none => ""
    | some t => if name.data = '.' :: t then "" else ⟨'.' :: t⟩

/-- `extname` agrees with Node's documented `path.extname` behaviour on the
representative cases, including the leading-dot names that have no
extension. -/
theorem extname_node_cases :
    extname "resume.pdf" = ".pdf" ∧ extname "index.coffee.md" = ".md" ∧
    extname "index." = "." ∧ extname "index" = "" ∧
    extname ".pdf" = "" ∧ extname ".index" = "" ∧ extname ".index.md" = ".md" ∧
    extname "." = "" ∧ extname ".." = "" ∧ extname "" = "" := by
  decide

/-- An uploaded file as seen by the validators: multer metadata plus the
bytes `fs.readFileSync` returns for its stored path. -/
structure JSFile where
  originalname : String
  mimetype : String
  size : ℕ
  content : List Char
  deriving Repr, DecidableEq

/-- The `FileInfo` record returned on successful validation. -/
structure FileInfo where
  originalName : String
  size : ℕ
  mimeType : String
  extension : String
  deriving Repr, DecidableEq

/-- The `ValidationResult` returned by `validateUploadedFile`. -/
structure ValidationResult where
  isValid : Bool
  fileInfo : Option FileInfo
  error : Option String
  deriving Repr, DecidableEq

/-- `validateFileSize`: throws when the size exceeds `MAX_FILE_SIZE`. -/
def validateFileSize (size : ℕ) : Except String Unit :=
  if MAX_FILE_SIZE < size then
    Except.error "File size exceeds limit. Maximum allowed: 10MB"
  else Except.ok ()

/-- The suspicious-filename patterns of `basicMalwareCheck` (tested against
the lowercased name). -/
def suspiciousNameCheck (fileName : String) : Bool :=
  [".exe", ".scr", ".bat", ".cmd", ".com", ".pif", ".vbs", ".js", ".jar"].any
    (fun p => sEndsWith fileName p)

/-- `basicMalwareCheck`'s header scan: the first 100 bytes of the buffer
contain "MZ" or "PE". -/
def headerHasExec (content : List Char) : Bool :=
  let h := content.take 100
  containsSeq h ("MZ".toList) || containsSeq h ("PE".toList)

/-- `basicMalwareCheck`: throws on a suspicious filename pattern or on
executable markers in the first 100 bytes. -/
def basicMalwareCheck (content : List Char) (originalName : String) : Except String Unit :=
  if suspiciousNameCheck (sLower originalName) = true then
    Except.error "Suspicious file type detected"
  else if headerHasExec content = true then
    Except.error "Executable content detected in file"
  else Except.ok ()

/-- The `%PDF` magic bytes. -/
def pdfMagic : List Char := "%PDF".toList

/-- The OLE compound-file header bytes `d0cf11e0a1b11ae1` checked for .doc. -/
def oleMagic : List Char :=
  [Char.ofNat 0xd0, Char.ofNat 0xcf, Char.ofNat 0x11, Char.ofNat 0xe0,
   Char.ofNat 0xa1, Char.ofNat 0xb1, Char.ofNat 0x1a, Char.ofNat 0xe1]

/-- The ZIP local-file-header magic `504b0304` checked for .docx. -/
def zipMagic1 : List Char := [Char.ofNat 0x50, Char.ofNat 0x4b, Char.ofNat 0x03, Char.ofNat 0x04]

/-- The empty-archive ZIP magic `504b0506` also accepted for .docx. -/
def zipMagic2 : List Char := [Char.ofNat 0x50, Char.ofNat 0x4b, Char.ofNat 0x05, Char.ofNat 0x06]

/-- One zip entry name matched against the macro heuristics of
`validateDocxFile`. -/
def entryLooksLikeMacro (e : String) : Bool :=
  containsSeq e.data ("vba".data) || containsSeq e.data ("macro".data) ||
  sEndsWith e ".bin" || containsSeq e.data ("word/vbaProject.bin".data)

/-- `validateDocxFile`: reads the ZIP central directory (`zipEntries`; `none`
models a yauzl parse failure), requires `word/document.xml`, and rejects
archives containing macro artifacts. -/
def validateDocxFile (zipEntries : Option (List String)) : Except String Unit :=
  match zipEntries with
  | none => Except.error "Invalid DOCX file structure"
  | some entries =>
      if "word/document.xml" ∉ entries then
        Except.error "Invalid DOCX file - missing required document structure"
      else if entries.any entryLooksLikeMacro = true then
        Except.error "DOCX files with macros are not allowed for security reasons"
      else Except.ok ()

/-- `validateFileType`: checks the extension against the allow-list and the
per-format magic bytes (plus the deep DOCX structure check). -/
def validateFileType (content : List Char) (originalName : String)
    (zipEntries : Option (List String)) : Except String Unit :=
  let ext := sLower (extname originalName)
  if ext ∉ ALLOWED_EXTENSIONS then
    Except.error "Invalid file extension. Allowed: .pdf, .doc, .docx"
  else if ext = ".pdf" ∧ content.take 4 ≠ pdfMagic then
    Except.error "Invalid PDF file format"
  else if ext = ".doc" ∧ content.take 8 ≠ oleMagic then
    Except.error "Invalid DOC file format"
  else if ext = ".docx" ∧ content.take 4 ≠ zipMagic1 ∧ content.take 4 ≠ zipMagic2 then
    Except.error "Invalid DOCX file format"
  else if ext = ".docx" then
    match validateDocxFile zipEntries with
    | Except.error e => Except.error e
    | Except.ok _ => Except.ok ()
  else Except.ok ()

/-- `validateUploadedFile`: runs size, malware and type validation in source
order; any thrown error is caught and reported as `isValid = false` with the
error message — the function itself never throws. -/
def validateUploadedFile (f : JSFile) (zipEntries : Option (List String)) : ValidationResult :=
  match validateFileSize f.size with
  | Except.error e => ⟨false, none, some e⟩
  | Except.ok _ =>
    match basicMalwareCheck f.content f.originalname with
    | Except.error e => ⟨false, none, some e⟩
    | Except.ok _ =>
      match validateFileType f.content f.originalname zipEntries with
      | Except.error e => ⟨false, none, some e⟩
      | Except.ok _ =>
          ⟨true, some ⟨f.originalname, f.size, f.mimetype, sLower (extname f.originalname)⟩,
            none⟩

/-! ## Part 7: the `/analyze` request handler (`server.ts`)

The handler's control flow is a case split on what happened with the
request; each branch ends in exactly one `res.status(...)` call. The events
below are the branches of that split, and `analyzeHandler` records the
status code and body markers each branch sends. -/

/-- The disjoint outcomes the `/analyze` handler distinguishes. -/
inductive AnalyzeEvent where
  /-- `req.file` is missing. -/
  | noFile
  /-- `validateUploadedFile` returned `isValid = false`. -/
  | validationFailed
  /-- `documentParserService.parseDocument` rejected (its promise threw). -/
  | parseRejected
  /-- parsing resolved, with the parser's own `success` flag. -/
  | parsed (parseSuccess : Bool)
  /-- multer raised `LIMIT_FILE_SIZE`. -/
  | multerFileSize
  /-- multer raised `LIMIT_UNEXPECTED_FILE`. -/
  | multerUnexpectedFile
  /-- any other exception reached the handler's outer catch. -/
  | otherError
  deriving Repr, DecidableEq

/-- The observable part of the handler's HTTP response: the status code,
the body's `success` flag when the body carries one, and the body's
`status` string when it carries one. -/
structure HttpResponse where
  status : ℕ
  bodySuccess : Option Bool
  bodyStatus : Option String
  deriving Repr, DecidableEq

/-- The `/analyze` handler's response per outcome, read off the
`res.status(...).json(...)` call of each branch. -/
def analyzeHandler : AnalyzeEvent → HttpResponse
  | AnalyzeEvent.noFile => ⟨400, none, none⟩
  | AnalyzeEvent.validationFailed => ⟨400, none, none⟩
  | AnalyzeEvent.parseRejected => ⟨200, some true, some "upload_success_parse_failed"⟩
  | AnalyzeEvent.parsed true => ⟨200, some true, some "parsed"⟩
  | AnalyzeEvent.parsed false => ⟨200, some true, some "parse_failed"⟩
  | AnalyzeEvent.multerFileSize => ⟨400, none, none⟩
  | AnalyzeEvent.multerUnexpectedFile => ⟨400, none, none⟩
  | AnalyzeEvent.otherError => ⟨500, none, none⟩

/-! ## Concrete data used by counterexamples and witnesses -/

/-- An analysis payload whose only available component is an ATS score of 70. -/
def atsOnly70 : AnalysisData := ⟨some ⟨true, 70⟩, none, none, none, "Software Engineer", "t0"⟩

/-- Two payloads identical on every scored component but different in the
fields the score never reads. -/
def dataRunA : AnalysisData := ⟨some ⟨true, 80⟩, none, some ⟨40⟩, some ⟨100⟩, "Engineer", "run-1"⟩

/-- Same scored components as `dataRunA`, different unscored fields. -/
def dataRunB : AnalysisData := ⟨some ⟨true, 80⟩, none, some ⟨40⟩, some ⟨100⟩, "Manager", "run-2"⟩

/-! ## Claim theorems -/

/-- C1 (counterexample): at a result whose only available component is an
ATS score of 70, the component computes an overall score of 70 and labels it
"Good", whereas the claimed bucketing (average for 65 ≤ s < 75) yields
"average" — the code's quality level is not the claimed five-bucket scale
(and no "average"/"below_average" label exists in the code at all). -/
theorem C1_counterexample :
    calculateOverallScore atsOnly70 = 70 ∧
    qualityLevel (calculateOverallScore atsOnly70) = "Good" ∧
    specQualityLevel (calculateOverallScore atsOnly70) = "average" ∧
    qualityLevel (calculateOverallScore atsOnly70) ≠
      specQualityLevel (calculateOverallScore atsOnly70) := by
  have h : calculateOverallScore atsOnly70 = 70 := by
    norm_num [calculateOverallScore, scoreAcc, jsRound, atsOnly70]
  refine ⟨h, ?_, ?_, ?_⟩ <;> rw [h] <;> simp [qualityLevel, specQualityLevel]

/-- C1 (amended): the overall score is the rounded arithmetic mean of the
component scores that are present, available and non-zero (ATS score,
overall match, skills match percentage, contact completeness), 0 when there
is none; the quality level is bucketed as Excellent when ≥ 80, Good when
≥ 60, and Needs Improvement below 60. -/
theorem C1_amended_mean_and_buckets (d : AnalysisData) (s : ℤ) :
    calculateOverallScore d =
      (if (includedScores d).length = 0 then 0
       else jsRound ((includedScores d).sum / ((includedScores d).length : ℚ))) ∧
    (80 ≤ s → qualityLevel s = "Excellent") ∧
    (60 ≤ s → s < 80 → qualityLevel s = "Good") ∧
    (s < 60 → qualityLevel s = "Needs Improvement") := by
  refine ⟨?_, ?_, ?_, ?_⟩
  · by_cases h : (includedScores d).length = 0
    · simp [calculateOverallScore, scoreAcc_eq_includedScores, h]
    · simp [calculateOverallScore, scoreAcc_eq_includedScores, h, Nat.pos_of_ne_zero h]
  · intro h; rw [qualityLevel, if_pos h]
  · intro h1 h2; rw [qualityLevel, if_neg (by omega), if_pos h1]
  · intro h; rw [qualityLevel, if_neg (by omega), if_neg (by omega)]

/-- C1 (witness): the amended characterization evaluated at the concrete
single-component payload and at score 70. -/
theorem C1_witness :
    calculateOverallScore atsOnly70 =
      (if (includedScores atsOnly70).length = 0 then 0
       else jsRound ((includedScores atsOnly70).sum / ((includedScores atsOnly70).length : ℚ))) ∧
    qualityLevel 70 = "Good" :=
  ⟨(C1_amended_mean_and_buckets atsOnly70 70).1,
   (C1_amended_mean_and_buckets atsOnly70 70).2.2.1 (by norm_num) (by norm_num)⟩

/-- C2 (counterexample): when `parseDocument` rejects — the analysis
pipeline failing unexpectedly on a validly uploaded file — the `/analyze`
handler responds 200 (with an `upload_success_parse_failed` body), not the
claimed 500. -/
theorem C2_counterexample :
    (analyzeHandler AnalyzeEvent.parseRejected).status = 200 ∧
    (analyzeHandler AnalyzeEvent.parseRejected).status ≠ 500 := by
  decide

/-- C2 (amended): missing or invalid uploads are rejected with 400 before
the parser runs; a request whose document parsing succeeds OR fails is
answered 200 (a parsing failure yields a 200 body flagged
`upload_success_parse_failed`); only a non-parsing unexpected error in the
handler surfaces as 500. The analysis core never picks a status code — each
code is set by a `res.status` call of the handler. -/
theorem C2_amended_status_mapping :
    (analyzeHandler AnalyzeEvent.noFile).status = 400 ∧
    (analyzeHandler AnalyzeEvent.validationFailed).status = 400 ∧
    (analyzeHandler AnalyzeEvent.multerFileSize).status = 400 ∧
    (analyzeHandler AnalyzeEvent.multerUnexpectedFile).status = 400 ∧
    (∀ b, (analyzeHandler (AnalyzeEvent.parsed b)).status = 200) ∧
    (analyzeHandler AnalyzeEvent.parseRejected).status = 200 ∧
    (analyzeHandler AnalyzeEvent.parseRejected).bodySuccess = some true ∧
    (analyzeHandler AnalyzeEvent.parseRejected).bodyStatus =
      some "upload_success_parse_failed" ∧
    (analyzeHandler AnalyzeEvent.otherError).status = 500 := by
  refine ⟨rfl, rfl, rfl, rfl, ?_, rfl, rfl, rfl, rfl⟩
  intro b; cases b <;> rfl

/-- C3: a scanned document with empty extracted text is forced to an ATS
total score of 0 with the critical penalty set, whatever the four sub-scores
are. -/
theorem C3_scanned_empty_ats_zero (i : AtsInput)
    (hs : i.is_scanned = true) (ht : i.extracted_text = "") :
    (computeAtsScore i).total_score = 0 ∧ (computeAtsScore i).critical_penalty = true := by
  rw [computeAtsScore, if_pos ⟨hs, ht⟩]
  exact ⟨rfl, rfl⟩

/-- C3 (witness): the invariant evaluated on a scanned, text-free document
with non-zero sub-scores. -/
theorem C3_witness :
    (computeAtsScore ⟨30, 25, 25, 20, true, ""⟩).total_score = 0 ∧
    (computeAtsScore ⟨30, 25, 25, 20, true, ""⟩).critical_penalty = true :=
  C3_scanned_empty_ats_zero ⟨30, 25, 25, 20, true, ""⟩ rfl rfl

/-- C4: the overall score is a pure, deterministic function of the scored
components: two payloads agreeing on the four component slices — whatever
their other fields — get identical scores, so recomputation on identical
input yields identical output. -/
theorem C4_pure_deterministic (d₁ d₂ : AnalysisData)
    (hats : d₁.ats_compatibility = d₂.ats_compatibility)
    (hmatch : d₁.match_analysis = d₂.match_analysis)
    (hskills : d₁.skills = d₂.skills)
    (hcontact : d₁.contact_info = d₂.contact_info) :
    calculateOverallScore d₁ = calculateOverallScore d₂ := by
  simp only [calculateOverallScore, scoreAcc, hats, hmatch, hskills, hcontact]

/-- C4 (witness): two concrete payloads differing only in unscored fields
score identically. -/
theorem C4_witness : calculateOverallScore dataRunA = calculateOverallScore dataRunB :=
  C4_pure_deterministic dataRunA dataRunB rfl rfl rfl rfl

/-- C5: `parseDocument` never rejects on an internal error — a missing
file, a missing parser script, a crashed/timed-out Python process or a
structurally invalid result all resolve to the structured fallback document
with `success = false`, an error message, and the fixed recommendation. -/
theorem C5_parse_never_rejects (env : ParseEnv) (fp : String)
    (h : parseInternalError env) :
    (parseDocument env fp).success = false ∧
    (parseDocument env fp).error.isSome = true ∧
    (parseDocument env fp).recommendations =
      ["Document parsing failed - please check file format and try again"] := by
  rcases env with ⟨fe, se, py, v⟩
  cases fe <;> cases se <;> cases v <;> rcases py with m | r <;>
    simp_all [parseDocument, fallbackDocument, parseInternalError]

/-- Environment of the C5 witness: the uploaded file is gone from disk. -/
def envNoFile : ParseEnv := ⟨false, true, Except.error "python crashed", true⟩

/-- C5 (witness): the fallback contract evaluated when the input file does
not exist. -/
theorem C5_witness :
    (parseDocument envNoFile "resume.pdf").success = false ∧
    (parseDocument envNoFile "resume.pdf").error.isSome = true ∧
    (parseDocument envNoFile "resume.pdf").recommendations =
      ["Document parsing failed - please check file format and try again"] :=
  C5_parse_never_rejects envNoFile "resume.pdf" (Or.inl rfl)

/-- C6 (counterexample): with S = ∅ and "Docker" both required and
preferred, "Docker" lands in `missing_required` and in `missing_preferred`
at once — the four sets are not pairwise disjoint, refuting the claimed
strict partition. -/
theorem C6_counterexample :
    "Docker" ∈ missingRequired ∅ {"Docker"} {"Docker"} ∧
    "Docker" ∈ missingPreferred ∅ {"Docker"} {"Docker"} := by
  decide

/-- C6 (amended): the union of the four matcher sets is exactly S ∪ R ∪ P;
`matched` and `bonus` are disjoint from every other set; the only possible
overlap is `missing_required ∩ missing_preferred = (R ∩ P) \ S`, so the
four sets are a strict partition exactly when every skill that is both
required and preferred is already on the resume (R ∩ P ⊆ S). -/
theorem C6_amended_partition (S R P : Finset String) :
    matchedSkills S R P ∪ missingRequired S R P ∪ missingPreferred S R P ∪ bonusSkills S R P
      = S ∪ R ∪ P ∧
    Disjoint (matchedSkills S R P) (missingRequired S R P) ∧
    Disjoint (matchedSkills S R P) (missingPreferred S R P) ∧
    Disjoint (matchedSkills S R P) (bonusSkills S R P) ∧
    Disjoint (missingRequired S R P) (bonusSkills S R P) ∧
    Disjoint (missingPreferred S R P) (bonusSkills S R P) ∧
    missingRequired S R P ∩ missingPreferred S R P = (R ∩ P) \ S ∧
    (R ∩ P ⊆ S → Disjoint (missingRequired S R P) (missingPreferred S R P)) := by
  refine ⟨?_, ?_, ?_, ?_, ?_, ?_, ?_, ?_⟩
  · ext x
    simp only [matchedSkills, missingRequired, missingPreferred, bonusSkills,
      Finset.mem_union, Finset.mem_inter, Finset.mem_sdiff]
    tauto
  · rw [Finset.disjoint_left]
    intro a ha hb
    simp only [matchedSkills, missingRequired, Finset.mem_inter, Finset.mem_union,
      Finset.mem_sdiff] at ha hb
    tauto
  · rw [Finset.disjoint_left]
    intro a ha hb
    simp only [matchedSkills, missingPreferred, Finset.mem_inter, Finset.mem_union,
      Finset.mem_sdiff] at ha hb
    tauto
  · rw [Finset.disjoint_left]
    intro a ha hb
    simp only [matchedSkills, bonusSkills, Finset.mem_inter, Finset.mem_union,
      Finset.mem_sdiff] at ha hb
    tauto
  · rw [Finset.disjoint_left]
    intro a ha hb
    simp only [missingRequired, bonusSkills, Finset.mem_union, Finset.mem_sdiff] at ha hb
    tauto
  · rw [Finset.disjoint_left]
    intro a ha hb
    simp only [missingPreferred, bonusSkills, Finset.mem_union, Finset.mem_sdiff] at ha hb
    tauto
  · ext x
    simp only [missingRequired, missingPreferred, Finset.mem_inter, Finset.mem_sdiff]
    tauto
  · intro hsub
    rw [Finset.disjoint_left]
    intro a ha hb
    simp only [missingRequired, missingPreferred, Finset.mem_sdiff] at ha hb
    exact ha.2 (hsub (Finset.mem_inter.mpr ⟨ha.1, hb.1⟩))

/-- C6 (witness): the amended partition evaluated on concrete sets with
R ∩ P ⊆ S, where the strict partition does hold. -/
theorem C6_witness :
    matchedSkills {"Python"} {"Python"} {"Python"} ∪
        missingRequired {"Python"} {"Python"} {"Python"} ∪
        missingPreferred {"Python"} {"Python"} {"Python"} ∪
        bonusSkills {"Python"} {"Python"} {"Python"}
      = {"Python"} ∪ {"Python"} ∪ {"Python"} ∧
    Disjoint (missingRequired {"Python"} {"Python"} {"Python"})
      (missingPreferred {"Python"} {"Python"} {"Python"}) :=
  ⟨(C6_amended_partition {"Python"} {"Python"} {"Python"}).1,
   (C6_amended_partition {"Python"} {"Python"} {"Python"}).2.2.2.2.2.2.2 (by decide)⟩

/-- Resume skill set of the spec's Scenario B. -/
def resumeSkillsB : Finset String := {"Python", "Vue.js"}

/-- Required target skills of the spec's Scenario B. -/
def requiredSkillsB : Finset String := {"Python", "React", "AWS"}

/-- C7: Scenario B — required Python/React/AWS against a Python/Vue.js
resume with no preferred skills gives matched = Python alone,
missing_required = React and AWS, required_coverage = 100/3 (≈ 33.3), and
gap level "poor" for every admissible required-vs-preferred weight. -/
theorem C7_scenarioB :
    matchedSkills resumeSkillsB requiredSkillsB ∅ = {"Python"} ∧
    missingRequired resumeSkillsB requiredSkillsB ∅ = {"React", "AWS"} ∧
    requiredCoverage resumeSkillsB requiredSkillsB ∅ = 100 / 3 ∧
    ∀ w : ℚ, 0 ≤ w → w ≤ 1 →
      gapLevel (overallCoverage w (requiredCoverage resumeSkillsB requiredSkillsB ∅)
        (preferredCoverage resumeSkillsB requiredSkillsB ∅)) = "poor" := by
  have hreq : requiredCoverage resumeSkillsB requiredSkillsB ∅ = 100 / 3 := by
    rw [requiredCoverage, if_neg (by decide)]
    norm_num [show (matchedSkills resumeSkillsB requiredSkillsB ∅ ∩ requiredSkillsB).card = 1
        from by decide,
      show requiredSkillsB.card = 3 from by decide]
  have hpref : preferredCoverage resumeSkillsB requiredSkillsB ∅ = 0 := by
    rw [preferredCoverage, if_pos (by decide)]
  refine ⟨by decide, by decide, hreq, ?_⟩
  intro w h0 h1
  rw [hreq, hpref]
  have hlt : overallCoverage w (100 / 3) 0 < 40 := by
    rw [overallCoverage]; nlinarith
  rw [gapLevel, if_neg (by linarith), if_neg (by linarith), if_neg (by linarith)]

/-- C7 (witness): Scenario B's gap level instantiated at the documented
70/30 weight. -/
theorem C7_witness :
    matchedSkills resumeSkillsB requiredSkillsB ∅ = {"Python"} ∧
    gapLevel (overallCoverage (7 / 10) (requiredCoverage resumeSkillsB requiredSkillsB ∅)
      (preferredCoverage resumeSkillsB requiredSkillsB ∅)) = "poor" :=
  ⟨C7_scenarioB.1, C7_scenarioB.2.2.2 (7 / 10) (by norm_num) (by norm_num)⟩

/-- C8: the completeness score is (fields present / 5) × 100 over the five
expected contact fields, and a contact with name, email, phone, location
and at least one link scores exactly 100. -/
theorem C8_contact_completeness (c : ExtractedContact) :
    completenessScore c = ((presentFieldCount c : ℚ) / 5) * 100 ∧
    (c.name.isSome = true → c.email.isSome = true → c.phone.isSome = true →
      c.location.isSome = true → c.links ≠ [] → completenessScore c = 100) := by
  refine ⟨rfl, ?_⟩
  intro h1 h2 h3 h4 h5
  have hcount : presentFieldCount c = 5 := by
    rw [presentFieldCount, if_pos h1, if_pos h2, if_pos h3, if_pos h4, if_pos h5]
  rw [completenessScore, hcount]
  norm_num

/-- A contact record with all five expected fields present. -/
def fullContact : ExtractedContact :=
  ⟨some "Ada Lovelace", some "ada@example.com", some "+1 555 0100", some "London",
   ["https://github.com/ada"]⟩

/-- C8 (witness): the full contact record scores 100. -/
theorem C8_witness : completenessScore fullContact = 100 :=
  (C8_contact_completeness fullContact).2 rfl rfl rfl rfl (by decide)

/-- A component slice is skipped by the aggregation when it is absent, not
available, or zero — the `ats_compatibility` case. -/
def atsExcluded : Option AtsCompatibility → Prop
  | some a => a.available = false ∨ a.score = 0
  | none => True

/-- Exclusion condition for the `match_analysis` component. -/
def matchExcluded : Option MatchAnalysis → Prop
  | some m => m.available = false ∨ m.overall_match = 0
  | none => True

/-- Exclusion condition for the `skills.match_percentage` component. -/
def skillsExcluded : Option SkillsInfo → Prop
  | some s => s.match_percentage = 0
  | none => True

/-- Exclusion condition for the `contact_info.completeness_score`
component. -/
def contactExcluded : Option ContactInfoScore → Prop
  | some c => c.completeness_score = 0
  | none => True

/-- C10: a zero component is excluded from both the sum and the divisor —
setting `skills.match_percentage` or `contact_info.completeness_score` to 0
yields exactly the score obtained with that component absent (so a 0 never
lowers the overall score), and when every component is absent or zero the
overall score is 0. -/
theorem C10_zero_excluded (d : AnalysisData) :
    calculateOverallScore { d with skills := some ⟨0⟩ } =
      calculateOverallScore { d with skills := none } ∧
    calculateOverallScore { d with contact_info := some ⟨0⟩ } =
      calculateOverallScore { d with contact_info := none } ∧
    (atsExcluded d.ats_compatibility → matchExcluded d.match_analysis →
      skillsExcluded d.skills → contactExcluded d.contact_info →
      calculateOverallScore d = 0) := by
  obtain ⟨ats, ma, sk, ci, ri, ts⟩ := d
  refine ⟨?_, ?_, ?_⟩
  · simp [calculateOverallScore, scoreAcc]
  · simp [calculateOverallScore, scoreAcc]
  · intro h1 h2 h3 h4
    have hlen : includedScores ⟨ats, ma, sk, ci, ri, ts⟩ = [] := by
      rcases ats with _ | a <;> rcases ma with _ | m <;> rcases sk with _ | s <;>
        rcases ci with _ | c <;>
        simp only [atsExcluded, matchExcluded, skillsExcluded, contactExcluded] at h1 h2 h3 h4 <;>
        (try rcases h1 with h1 | h1) <;> (try rcases h2 with h2 | h2) <;>
        simp_all [includedScores]
    rw [calculateOverallScore, scoreAcc_eq_includedScores, hlen]
    simp

/-- C10 (witness): the all-absent payload scores 0. -/
theorem C10_witness : calculateOverallScore ⟨none, none, none, none, "", ""⟩ = 0 :=
  (C10_zero_excluded ⟨none, none, none, none, "", ""⟩).2.2 trivial trivial trivial trivial

/-! ## C9: characterization of the upload-validation chain -/

/-- `validateFileSize` succeeds exactly on sizes within the limit. -/
theorem validateFileSize_ok_iff (n : ℕ) :
    validateFileSize n = Except.ok () ↔ n ≤ MAX_FILE_SIZE := by
  rw [validateFileSize]
  split_ifs with h <;> simp <;> omega

/-- `basicMalwareCheck` succeeds exactly when neither the filename pattern
nor the header scan fires. -/
theorem basicMalwareCheck_ok_iff (content : List Char) (name : String) :
    basicMalwareCheck content name = Except.ok () ↔
      suspiciousNameCheck (sLower name) = false ∧ headerHasExec content = false := by
  rw [basicMalwareCheck]
  split_ifs with h1 h2 <;> simp_all

/-- `validateDocxFile` succeeds exactly on a readable archive containing
`word/document.xml` and no macro artifact. -/
theorem validateDocxFile_ok_iff (z : Option (List String)) :
    validateDocxFile z = Except.ok () ↔
      ∃ entries, z = some entries ∧ "word/document.xml" ∈ entries ∧
        entries.any entryLooksLikeMacro = false := by
  cases z with
  | none => simp [validateDocxFile]
  | some es =>
      rw [validateDocxFile]
      split_ifs with h1 h2 <;> simp_all

/-- `validateFileType` succeeds exactly on an allow-listed extension whose
per-format magic bytes (and, for .docx, archive structure) check out. -/
theorem validateFileType_ok_iff (content : List Char) (name : String)
    (z : Option (List String)) :
    validateFileType content name z = Except.ok () ↔
      (sLower (extname name) ∈ ALLOWED_EXTENSIONS ∧
       (sLower (extname name) = ".pdf" → content.take 4 = pdfMagic) ∧
       (sLower (extname name) = ".doc" → content.take 8 = oleMagic) ∧
       (sLower (extname name) = ".docx" →
         (content.take 4 = zipMagic1 ∨ content.take 4 = zipMagic2) ∧
         ∃ entries, z = some entries ∧ "word/document.xml" ∈ entries ∧
           entries.any entryLooksLikeMacro = false)) := by
  simp only [validateFileType]
  by_cases h1 : sLower (extname name) ∉ ALLOWED_EXTENSIONS
  · rw [if_pos h1]
    simp_all
  · rw [if_neg h1]
    by_cases h2 : sLower (extname name) = ".pdf" ∧ content.take 4 ≠ pdfMagic
    · rw [if_pos h2]
      rcases h2 with ⟨he, hm⟩
      simp_all
    · rw [if_neg h2]
      by_cases h3 : sLower (extname name) = ".doc" ∧ content.take 8 ≠ oleMagic
      · rw [if_pos h3]
        rcases h3 with ⟨he, hm⟩
        simp_all
      · rw [if_neg h3]
        by_cases h4 : sLower (extname name) = ".docx" ∧ content.take 4 ≠ zipMagic1 ∧
            content.take 4 ≠ zipMagic2
        · rw [if_pos h4]
          rcases h4 with ⟨he, hm1, hm2⟩
          constructor
          · intro h; exact absurd h (by simp)
          · rintro ⟨-, -, -, hx⟩
            rcases (hx he).1 with hz | hz <;> simp_all
        · rw [if_neg h4]
          by_cases h5 : sLower (extname name) = ".docx"
          · rw [if_pos h5]
            rcases hdv : validateDocxFile z with e | u
            · constructor
              · intro h; exact absurd h (by simp)
              · rintro ⟨-, -, -, hx⟩
                have hex := (hx h5).2
                rw [← validateDocxFile_ok_iff z, hdv] at hex
                exact hex
            · cases u
              have hex := (validateDocxFile_ok_iff z).mp hdv
              constructor
              · intro _
                refine ⟨not_not.mp h1, ?_, ?_, fun _ => ⟨?_, hex⟩⟩
                · intro hpdf
                  exact absurd (hpdf.symm.trans h5) (by decide)
                · intro hdoc
                  exact absurd (hdoc.symm.trans h5) (by decide)
                · by_contra hno
                  push_neg at hno
                  exact h4 ⟨h5, hno.1, hno.2⟩
              · intro _
                rfl
          · rw [if_neg h5]
            constructor
            · intro _
              refine ⟨not_not.mp h1, ?_, ?_, fun hx => absurd hx h5⟩
              · intro hpdf
                by_contra hno
                exact h2 ⟨hpdf, hno⟩
              · intro hdoc
                by_contra hno
                exact h3 ⟨hdoc, hno⟩
            · intro _
              rfl

/-- The full acceptance condition of the validation chain, written out
declaratively: within the size limit, no suspicious-filename pattern, no
executable marker in the first 100 bytes, an allow-listed extension, and
the per-format content checks. -/
def acceptedFile (f : JSFile) (z : Option (List String)) : Prop :=
  f.size ≤ MAX_FILE_SIZE ∧
  suspiciousNameCheck (sLower f.originalname) = false ∧
  headerHasExec f.content = false ∧
  sLower (extname f.originalname) ∈ ALLOWED_EXTENSIONS ∧
  (sLower (extname f.originalname) = ".pdf" → f.content.take 4 = pdfMagic) ∧
  (sLower (extname f.originalname) = ".doc" → f.content.take 8 = oleMagic) ∧
  (sLower (extname f.originalname) = ".docx" →
    (f.content.take 4 = zipMagic1 ∨ f.content.take 4 = zipMagic2) ∧
    ∃ entries, z = some entries ∧ "word/document.xml" ∈ entries ∧
      entries.any entryLooksLikeMacro = false)

/-- A small PDF upload with valid magic bytes whose text mentions "MZ". -/
def pdfWithExecMarker : JSFile :=
  ⟨"resume.pdf", "application/pdf", 6, "%PDFMZ".data⟩

/-- C9 (counterexample): a file within the size limit, with an allowed
extension and valid PDF magic bytes — so accepted by the claim's three
conditions — is still rejected, because `basicMalwareCheck` finds "MZ" in
its first 100 bytes; the claim's "otherwise it returns isValid=true" is
false. -/
theorem C9_counterexample :
    pdfWithExecMarker.size ≤ MAX_FILE_SIZE ∧
    sLower (extname pdfWithExecMarker.originalname) ∈ ALLOWED_EXTENSIONS ∧
    pdfWithExecMarker.content.take 4 = pdfMagic ∧
    (validateUploadedFile pdfWithExecMarker none).isValid = false ∧
    (validateUploadedFile pdfWithExecMarker none).error =
      some "Executable content detected in file" := by
  decide

/-- C9 (amended): `validateUploadedFile` is total and never throws; it
returns `isValid = true` (with the file info populated) exactly when the
size, malware-heuristic, extension and per-format content checks all pass,
and otherwise returns `isValid = false` carrying the error message of the
check that failed. -/
theorem C9_amended_validation (f : JSFile) (z : Option (List String)) :
    ((validateUploadedFile f z).isValid = true ↔ acceptedFile f z) ∧
    ((validateUploadedFile f z).isValid = false →
      (validateUploadedFile f z).error.isSome = true) ∧
    ((validateUploadedFile f z).isValid = true →
      (validateUploadedFile f z).fileInfo =
        some ⟨f.originalname, f.size, f.mimetype, sLower (extname f.originalname)⟩) := by
  rcases hs : validateFileSize f.size with es | us
  · have hsz : ¬ f.size ≤ MAX_FILE_SIZE := by
      intro hle
      have h := (validateFileSize_ok_iff f.size).mpr hle
      rw [hs] at h
      exact absurd h (by simp)
    refine ⟨?_, ?_, ?_⟩ <;> simp [validateUploadedFile, hs, acceptedFile] <;> tauto
  · cases us
    rcases hm : basicMalwareCheck f.content f.originalname with em | um
    · have hmw : ¬ (suspiciousNameCheck (sLower f.originalname) = false ∧
          headerHasExec f.content = false) := by
        intro hc
        have h := (basicMalwareCheck_ok_iff f.content f.originalname).mpr hc
        rw [hm] at h
        exact absurd h (by simp)
      refine ⟨?_, ?_, ?_⟩ <;> simp [validateUploadedFile, hs, hm, acceptedFile] <;> tauto
    · cases um
      rcases ht : validateFileType f.content f.originalname z with et | ut
      · have hiff : ¬ acceptedFile f z := by
          rintro ⟨hsz, hsusp, hexec, h4, h5, h6, h7⟩
          have h := (validateFileType_ok_iff f.content f.originalname z).mpr ⟨h4, h5, h6, h7⟩
          rw [ht] at h
          exact absurd h (by simp)
        have hres : validateUploadedFile f z = ⟨false, none, some et⟩ := by
          simp [validateUploadedFile, hs, hm, ht]
        refine ⟨?_, ?_, ?_⟩ <;> rw [hres]
        · simpa using hiff
        · intro _
          rfl
        · intro h
          exact absurd h (by simp)
      · cases ut
        have hsz := (validateFileSize_ok_iff f.size).mp hs
        have hmw := (basicMalwareCheck_ok_iff f.content f.originalname).mp hm
        have htw := (validateFileType_ok_iff f.content f.originalname z).mp ht
        have hres : validateUploadedFile f z =
            ⟨true, some ⟨f.originalname, f.size, f.mimetype, sLower (extname f.originalname)⟩,
              none⟩ := by
          simp [validateUploadedFile, hs, hm, ht]
        refine ⟨?_, ?_, ?_⟩ <;> rw [hres]
        · simp only [true_iff]
          exact ⟨hsz, hmw.1, hmw.2, htw.1, htw.2.1, htw.2.2.1, htw.2.2.2⟩
        · intro h
          exact absurd h (by simp)
        · intro _
          rfl

/-- C9 (witness): the amended characterization evaluated on a well-formed
small PDF upload. -/
theorem C9_witness :
    (validateUploadedFile ⟨"resume.pdf", "application/pdf", 4, "%PDF".data⟩ none).isValid
      = true :=
  ((C9_amended_validation ⟨"resume.pdf", "application/pdf", 4, "%PDF".data⟩ none).1).mpr
    (by refine ⟨by decide, by decide, by decide, by decide, fun _ => by decide,
      fun h => absurd h (by decide), fun h => absurd h (by decide)⟩)

end ResumeAnalyzer
